import Mathlib

/-!
Verification of the SerialMonitor data model and single-shot event detector
(`src/data.rs`) against its natural-language specification.

Rust `f64`/`f32` values are embedded as exact rationals `ℚ`; a sample
`[f64; 2]` becomes a pair `(timestamp, value) : ℚ × ℚ`.  Fallible or
panicking operations are modelled with `Option`.
-/

/-- A `(timestamp, value)` sample, embedding the Rust `[f64; 2]`. -/
abbrev Sample : Type := ℚ × ℚ

/-- Embeds `TriggerConfig` from `src/data.rs`: baseline/stability window
(seconds), deviation tolerance, and monitored channel index. -/
structure TriggerConfig where
  window : ℚ
  tolerance : ℚ
  input_slot : ℕ
deriving Repr, DecidableEq

/-- `TriggerConfig::default()` from `src/data.rs`. -/
def TriggerConfig.default : TriggerConfig :=
  { window := 1/20, tolerance := 1/10, input_slot := 0 }

/-- The mutable scan state of the loop inside `detect_single_shot`:
the pending event start, the last closed event, and the stable buffer. -/
structure ScanState where
  event_start : Option ℚ
  last_event : Option (ℚ × ℚ)
  stable_buffer : List Sample
deriving Repr, DecidableEq

/-- One iteration of the `for window_start in 0..values.len()` loop of
`detect_single_shot`, translated branch by branch from `src/data.rs`.
The Rust `stable_buffer.last().unwrap()` / `.first().unwrap()` occur just
after a push, so the buffer is non-empty there; they are rendered with
`getLastD` / `headD`, whose defaults are never consulted. -/
def scanStep (window tolerance baseline : ℚ) (st : ScanState) (point : Sample) :
    ScanState :=
  let deviation := |point.2 - baseline|
  if deviation > tolerance then
    { event_start := if st.event_start.isNone then some point.1 else st.event_start,
      last_event := st.last_event,
      stable_buffer := [] }
  else
    match st.event_start with
    | some start_time =>
      let buf := st.stable_buffer ++ [point]
      let time_span := (buf.getLastD point).1 - (buf.headD point).1
      if time_span ≥ window then
        { event_start := none,
          last_event := some (start_time - window, (buf.getLastD point).1),
          stable_buffer := [] }
      else
        { st with stable_buffer := buf }
    | none => st

/-- The whole scan loop of `detect_single_shot`, started from the initial
state `event_start = None`, `last_event = None`, `stable_buffer = []`. -/
def runScan (vs : List Sample) (window tolerance baseline : ℚ) : ScanState :=
  vs.foldl (scanStep window tolerance baseline) ⟨none, none, []⟩

/-- The baseline slice computed by `detect_single_shot`: values of the
samples whose timestamp is within `window` of the first sample's timestamp
(the Rust filter `n[0] - first_time <= window`). -/
def codeBaselineSlice (vs : List Sample) (window : ℚ) : List ℚ :=
  match vs.head? with
  | none => []
  | some first => (vs.filter (fun n => decide (n.1 - first.1 ≤ window))).map (fun n => n.2)

/-- The baseline of `detect_single_shot`: arithmetic mean of the baseline
slice (`baseline_slice.iter().sum() / baseline_slice.len()`). -/
def codeBaseline (vs : List Sample) (window : ℚ) : ℚ :=
  (codeBaselineSlice vs window).sum / ((codeBaselineSlice vs window).length : ℚ)

/-- Embeds `detect_single_shot` from `src/data.rs`.  A channel list and a
trigger config produce an optional `(start, end)` event.  The Rust
out-of-bounds guard short-circuits before indexing; here the selected
channel is read with `getD` whose default `[]` is only reached when the
guard already returns `none`. -/
def detect_single_shot (values : List (List Sample)) (tc : TriggerConfig) :
    Option (ℚ × ℚ) :=
  if tc.input_slot ≥ values.length ∨ (values.getD tc.input_slot []).length < 2 then
    none
  else
    let vs := values.getD tc.input_slot []
    match vs.head? with
    | none => none
    | some _first =>
      let baseline_slice := codeBaselineSlice vs tc.window
      if baseline_slice.isEmpty then
        none
      else
        let baseline := baseline_slice.sum / (baseline_slice.length : ℚ)
        (runScan vs tc.window tc.tolerance baseline).last_event

/-! ## Instrumented scan: the list of all events closed during the scan

`traceStep` is `scanStep` with `last_event : Option _` replaced by the
list of every event closed so far, in order.  It lets us state that
`detect_single_shot` returns exactly the last closed event. -/

/-- Scan state that records every closed event instead of only the last. -/
structure ScanTrace where
  event_start : Option ℚ
  events : List (ℚ × ℚ)
  stable_buffer : List Sample
deriving Repr, DecidableEq

/-- `scanStep`, but appending each closed event to `events` instead of
overwriting `last_event`. -/
def traceStep (window tolerance baseline : ℚ) (st : ScanTrace) (point : Sample) :
    ScanTrace :=
  let deviation := |point.2 - baseline|
  if deviation > tolerance then
    { event_start := if st.event_start.isNone then some point.1 else st.event_start,
      events := st.events,
      stable_buffer := [] }
  else
    match st.event_start with
    | some start_time =>
      let buf := st.stable_buffer ++ [point]
      let time_span := (buf.getLastD point).1 - (buf.headD point).1
      if time_span ≥ window then
        { event_start := none,
          events := st.events ++ [(start_time - window, (buf.getLastD point).1)],
          stable_buffer := [] }
      else
        { st with stable_buffer := buf }
    | none => st

/-- All events closed by the scan of `detect_single_shot`, in the order
they close; `[]` on each early-return path of the function. -/
def closedEvents (values : List (List Sample)) (tc : TriggerConfig) :
    List (ℚ × ℚ) :=
  if tc.input_slot ≥ values.length ∨ (values.getD tc.input_slot []).length < 2 then
    []
  else
    let vs := values.getD tc.input_slot []
    match vs.head? with
    | none => []
    | some _first =>
      let baseline_slice := codeBaselineSlice vs tc.window
      if baseline_slice.isEmpty then
        []
      else
        let baseline := baseline_slice.sum / (baseline_slice.length : ℚ)
        (vs.foldl (traceStep tc.window tc.tolerance baseline) ⟨none, [], []⟩).events

/-! ## Panic-checked variant

Every partial Rust operation of `detect_single_shot` (slice indexing,
`first().unwrap()`, the `unwrap`s on `stable_buffer`) is rendered with its
`Option`-returning counterpart; reaching a failure branch yields an outer
`none` in place of a panic. -/

/-- `scanStep` with the two `unwrap`s on the pushed buffer made explicit:
`none` models a panic of `stable_buffer.last().unwrap()` or
`stable_buffer.first().unwrap()`. -/
def scanStepChecked (window tolerance baseline : ℚ) (st : ScanState)
    (point : Sample) : Option ScanState :=
  let deviation := |point.2 - baseline|
  if deviation > tolerance then
    some { event_start := if st.event_start.isNone then some point.1 else st.event_start,
           last_event := st.last_event,
           stable_buffer := [] }
  else
    match st.event_start with
    | some start_time =>
      let buf := st.stable_buffer ++ [point]
      match buf.getLast?, buf.head? with
      | some lastp, some headp =>
        let time_span := lastp.1 - headp.1
        if time_span ≥ window then
          some { event_start := none,
                 last_event := some (start_time - window, lastp.1),
                 stable_buffer := [] }
        else
          some { st with stable_buffer := buf }
      | _, _ => none
    | none => some st

/-- `detect_single_shot` with every partial operation checked: the outer
`none` marks a would-be panic, `some r` a normal return of `r`. -/
def detect_single_shot_checked (values : List (List Sample)) (tc : TriggerConfig) :
    Option (Option (ℚ × ℚ)) :=
  if tc.input_slot ≥ values.length then
    some none
  else
    match values[tc.input_slot]? with
    | none => none
    | some vs =>
      if vs.length < 2 then
        some none
      else
        match vs.head? with
        | none => none
        | some _first =>
          let baseline_slice := codeBaselineSlice vs tc.window
          if baseline_slice.isEmpty then
            some none
          else
            let baseline := baseline_slice.sum / (baseline_slice.length : ℚ)
            match vs.foldlM (scanStepChecked tc.window tc.tolerance baseline)
                (⟨none, none, []⟩ : ScanState) with
            | none => none
            | some st => some st.last_event

/-! ## Spec-side definitions for the baseline claim -/

/-- Written from the spec's words, for comparison with `codeBaselineSlice`:
values of exactly the samples whose timestamp lies within
`[t0, t0 + window]` inclusive, `t0` the first sample's timestamp. -/
def specBaselineSlice (vs : List Sample) (window : ℚ) : List ℚ :=
  match vs.head? with
  | none => []
  | some first =>
    (vs.filter (fun n => decide (first.1 ≤ n.1 ∧ n.1 ≤ first.1 + window))).map
      (fun n => n.2)

/-! ## Configuration data model

`Parity`, `FlowCtrl`, `StartMode` and `Duration` live in the repository's
`serial_reader` module / the standard library, outside `src/`; they are
modelled from the spec. -/

/-- Modelled from the spec: the parity enumeration of the missing
`serial_reader` module ("parity (enumeration: None/Odd/Even/Mark/Space)"). -/
inductive Parity where
  | None
  | Odd
  | Even
  | Mark
  | Space
deriving Repr, DecidableEq

/-- Modelled from the spec: the flow-control enumeration of the missing
`serial_reader` module ("flow control (enumeration: None/Software/Hardware)"). -/
inductive FlowCtrl where
  | None
  | Software
  | Hardware
deriving Repr, DecidableEq

/-- `std::time::Duration`: whole seconds plus nanoseconds. -/
structure Duration where
  secs : ℕ
  nanos : ℕ
deriving Repr, DecidableEq

/-- `Duration::ZERO`. -/
def Duration.ZERO : Duration := ⟨0, 0⟩

/-- `Duration::from_millis`. -/
def Duration.from_millis (ms : ℕ) : Duration :=
  ⟨ms / 1000, (ms % 1000) * 1000000⟩

/-- Modelled from the spec: the start-trigger mode of the missing
`serial_reader` module ("start mode (tagged union: Immediate |
Delay(duration) | Message(string trigger text))"). -/
inductive StartMode where
  | Immediate
  | Delay (d : Duration)
  | Message (msg : String)
deriving Repr, DecidableEq

/-- Embeds `ConnectionConfig` from `src/data.rs`. -/
structure ConnectionConfig where
  port : String
  baud_rate : ℕ
  data_bits : ℕ
  parity : Parity
  stop_bits : ℕ
  flow_ctrl : FlowCtrl
  dtr : Bool
  start_mode : StartMode
  start_delay : ℕ
  start_msg : String
deriving Repr, DecidableEq

/-- `ConnectionConfig::NO_PORT`. -/
def ConnectionConfig.NO_PORT : String := "-"

/-- `ConnectionConfig::default()` from `src/data.rs`. -/
def ConnectionConfig.default : ConnectionConfig :=
  { port := ConnectionConfig.NO_PORT
    baud_rate := 9600
    data_bits := 8
    parity := Parity.None
    stop_bits := 1
    flow_ctrl := FlowCtrl.None
    dtr := true
    start_mode := StartMode.Delay Duration.ZERO
    start_delay := 1000
    start_msg := "Start" }

/-- Embeds `impl From<ConnectionConfig> for StartMode` from `src/data.rs`:
the produced variant follows `start_mode`'s tag, the payload is taken from
`start_delay` (millis → `Duration`) or `start_msg`. -/
def ConnectionConfig.toStartMode (value : ConnectionConfig) : StartMode :=
  match value.start_mode with
  | StartMode.Immediate => StartMode.Immediate
  | StartMode.Delay _ => StartMode.Delay (Duration.from_millis value.start_delay)
  | StartMode.Message _ => StartMode.Message value.start_msg

/-- Embeds `PlotMode` from `src/data.rs` (the `Continous` spelling is the
source's). -/
inductive PlotMode where
  | Continous
  | Cyclic
  | SingleShot
deriving Repr, DecidableEq

/-- Embeds `PlotScaleMode` from `src/data.rs`. -/
inductive PlotScaleMode where
  | Auto
  | AutoMax
  | Manual
deriving Repr, DecidableEq

/-- Embeds `PlotConfig` from `src/data.rs`. -/
structure PlotConfig where
  mode : PlotMode
  window : ℚ
  scale_mode : PlotScaleMode
  y_min : ℚ
  y_max : ℚ
deriving Repr, DecidableEq

/-- `PlotConfig::default()` from `src/data.rs`. -/
def PlotConfig.default : PlotConfig :=
  { mode := PlotMode.Continous
    window := 5
    scale_mode := PlotScaleMode.Auto
    y_min := 0
    y_max := 1 }

/-- Embeds `InputSlot` from `src/data.rs`; `value` carries
`#[serde(skip)]` in the source and is not persisted. -/
structure InputSlot where
  index : ℕ
  name : String
  color : ℚ × ℚ × ℚ
  value : ℚ
deriving Repr, DecidableEq

/-- `InputSlot`'s derived `Default` (zeroed/empty). -/
def InputSlot.default : InputSlot :=
  { index := 0, name := "", color := (0, 0, 0), value := 0 }

/-- Embeds `PlotData` from `src/data.rs`. -/
structure PlotData where
  id : ℕ
  name : String
  hidden : List ℕ
  height : ℚ
  console : Bool
deriving Repr, DecidableEq

/-! ## The global plot-id counter

`static PLOT_ID: AtomicUsize = AtomicUsize::new(1)` is the only mutable
state in the file.  It is embedded by explicit state passing: `IdState`
is the counter's value, and each operation of `src/data.rs` that touches
it becomes a state transformer. -/

/-- The process-wide `PLOT_ID` counter, threaded explicitly. -/
structure IdState where
  plot_id : ℕ
deriving Repr, DecidableEq

/-- The counter's initial value, `AtomicUsize::new(1)`. -/
def IdState.init : IdState := ⟨1⟩

/-- `PlotData::new` from `src/data.rs`: takes the counter's value as id
(`fetch_add(1)`) and advances the counter. -/
def PlotData.new (name : String) (s : IdState) : PlotData × IdState :=
  ({ id := s.plot_id, name := name, hidden := [], height := 256, console := false },
   ⟨s.plot_id + 1⟩)

/-- `PlotData::console` from `src/data.rs`. -/
def PlotData.console_new (s : IdState) : PlotData × IdState :=
  ({ id := s.plot_id, name := "Console", hidden := [], height := 192, console := true },
   ⟨s.plot_id + 1⟩)

/-- `PlotData::update_internal_ids` from `src/data.rs`: if the plot list
is non-empty, STORE `max id + 1` into the counter (a plain store, not a
monotone advance); otherwise leave the counter unchanged. -/
def PlotData.update_internal_ids (plots : List PlotData) (s : IdState) : IdState :=
  match (plots.map PlotData.id).max? with
  | none => s
  | some m => ⟨m + 1⟩

/-- One call site touching the plot-id counter. -/
inductive PlotOp where
  | newPlot (name : String)
  | consolePlot
  | update (plots : List PlotData)
deriving Repr, DecidableEq

/-- `PlotOp.isConstruct`: the operation constructs a `PlotData` (either
constructor), as opposed to `update_internal_ids`. -/
def PlotOp.isConstruct : PlotOp → Bool
  | PlotOp.newPlot _ => true
  | PlotOp.consolePlot => true
  | PlotOp.update _ => false

/-- Run a sequence of counter-touching operations from a counter state,
returning the ids handed out to constructed `PlotData`, in order, and the
final counter. -/
def runOps : List PlotOp → IdState → List ℕ × IdState
  | [], s => ([], s)
  | PlotOp.newPlot name :: rest, s =>
    let (p, s1) := PlotData.new name s
    let (is, s2) := runOps rest s1
    (p.id :: is, s2)
  | PlotOp.consolePlot :: rest, s =>
    let (p, s1) := PlotData.console_new s
    let (is, s2) := runOps rest s1
    (p.id :: is, s2)
  | PlotOp.update plots :: rest, s =>
    runOps rest (PlotData.update_internal_ids plots s)

/-- Embeds `SerialMonitorData` from `src/data.rs`. -/
structure SerialMonitorData where
  conn_config : ConnectionConfig
  plot_config : PlotConfig
  trigger_config : TriggerConfig
  inp_slots : List InputSlot
  plots : List PlotData
deriving Repr, DecidableEq

/-- `SerialMonitorData`'s derived `Default`. -/
def SerialMonitorData.default : SerialMonitorData :=
  { conn_config := ConnectionConfig.default
    plot_config := PlotConfig.default
    trigger_config := TriggerConfig.default
    inp_slots := []
    plots := [] }

/-! ## Persistence: the JSON document model

`SerialMonitorData::serialize` / `deserialize` pipe the aggregate through
`serde_json`.  The document is modelled as a JSON tree; each type's
encoder/decoder follows the serde derive semantics: a struct is an object
of its named fields (a `#[serde(skip)]` field is omitted on encode and
default-filled on decode), a unit enum variant is its name as a string, a
newtype variant is a one-field object (external tagging). -/

/-- A JSON value; numbers are exact rationals. -/
inductive Json where
  | null
  | bool (b : Bool)
  | num (q : ℚ)
  | str (s : String)
  | arr (items : List Json)
  | obj (fields : List (String × Json))
deriving Repr

/-- Decode a JSON number as a non-negative integer. -/
def Json.asNat? : Json → Option ℕ
  | Json.num q => if q.den = 1 ∧ 0 ≤ q.num then some q.num.toNat else none
  | _ => none

/-- Decode a JSON number as a rational. -/
def Json.asRat? : Json → Option ℚ
  | Json.num q => some q
  | _ => none

/-- Decode a JSON string. -/
def Json.asStr? : Json → Option String
  | Json.str s => some s
  | _ => none

/-- Decode a JSON boolean. -/
def Json.asBool? : Json → Option Bool
  | Json.bool b => some b
  | _ => none

/-- Look up a field of a JSON object. -/
def Json.field? (j : Json) (key : String) : Option Json :=
  match j with
  | Json.obj fields => fields.lookup key
  | _ => none

/-- Encode a list elementwise as a JSON array. -/
def jsonOfList (f : α → Json) (l : List α) : Json :=
  Json.arr (l.map f)

/-- Decode a JSON array elementwise. -/
def listOfJson (f : Json → Option α) : Json → Option (List α)
  | Json.arr items => items.mapM f
  | _ => none

/-- Serde encoding of `Parity` (unit variants, external tags). -/
def Parity.toJson : Parity → Json
  | Parity.None => Json.str "None"
  | Parity.Odd => Json.str "Odd"
  | Parity.Even => Json.str "Even"
  | Parity.Mark => Json.str "Mark"
  | Parity.Space => Json.str "Space"

/-- Serde decoding of `Parity`. -/
def Parity.fromJson : Json → Option Parity
  | Json.str "None" => some Parity.None
  | Json.str "Odd" => some Parity.Odd
  | Json.str "Even" => some Parity.Even
  | Json.str "Mark" => some Parity.Mark
  | Json.str "Space" => some Parity.Space
  | _ => none

/-- Serde encoding of `FlowCtrl`. -/
def FlowCtrl.toJson : FlowCtrl → Json
  | FlowCtrl.None => Json.str "None"
  | FlowCtrl.Software => Json.str "Software"
  | FlowCtrl.Hardware => Json.str "Hardware"

/-- Serde decoding of `FlowCtrl`. -/
def FlowCtrl.fromJson : Json → Option FlowCtrl
  | Json.str "None" => some FlowCtrl.None
  | Json.str "Software" => some FlowCtrl.Software
  | Json.str "Hardware" => some FlowCtrl.Hardware
  | _ => none

/-- Serde encoding of `std::time::Duration` (`secs` + `nanos`). -/
def Duration.toJson (d : Duration) : Json :=
  Json.obj [("secs", Json.num d.secs), ("nanos", Json.num d.nanos)]

/-- Serde decoding of `std::time::Duration`. -/
def Duration.fromJson (j : Json) : Option Duration := do
  let secs ← (j.field? "secs").bind Json.asNat?
  let nanos ← (j.field? "nanos").bind Json.asNat?
  pure ⟨secs, nanos⟩

/-- Serde encoding of `StartMode` (externally tagged union). -/
def StartMode.toJson : StartMode → Json
  | StartMode.Immediate => Json.str "Immediate"
  | StartMode.Delay d => Json.obj [("Delay", d.toJson)]
  | StartMode.Message msg => Json.obj [("Message", Json.str msg)]

/-- Serde decoding of `StartMode`. -/
def StartMode.fromJson : Json → Option StartMode
  | Json.str "Immediate" => some StartMode.Immediate
  | Json.obj [("Delay", v)] => (Duration.fromJson v).map StartMode.Delay
  | Json.obj [("Message", v)] => v.asStr?.map StartMode.Message
  | _ => none

/-- Serde encoding of `ConnectionConfig`. -/
def ConnectionConfig.toJson (c : ConnectionConfig) : Json :=
  Json.obj
    [("port", Json.str c.port),
     ("baud_rate", Json.num c.baud_rate),
     ("data_bits", Json.num c.data_bits),
     ("parity", c.parity.toJson),
     ("stop_bits", Json.num c.stop_bits),
     ("flow_ctrl", c.flow_ctrl.toJson),
     ("dtr", Json.bool c.dtr),
     ("start_mode", c.start_mode.toJson),
     ("start_delay", Json.num c.start_delay),
     ("start_msg", Json.str c.start_msg)]

/-- Serde decoding of `ConnectionConfig`. -/
def ConnectionConfig.fromJson (j : Json) : Option ConnectionConfig := do
  let port ← (j.field? "port").bind Json.asStr?
  let baud_rate ← (j.field? "baud_rate").bind Json.asNat?
  let data_bits ← (j.field? "data_bits").bind Json.asNat?
  let parity ← (j.field? "parity").bind Parity.fromJson
  let stop_bits ← (j.field? "stop_bits").bind Json.asNat?
  let flow_ctrl ← (j.field? "flow_ctrl").bind FlowCtrl.fromJson
  let dtr ← (j.field? "dtr").bind Json.asBool?
  let start_mode ← (j.field? "start_mode").bind StartMode.fromJson
  let start_delay ← (j.field? "start_delay").bind Json.asNat?
  let start_msg ← (j.field? "start_msg").bind Json.asStr?
  pure ⟨port, baud_rate, data_bits, parity, stop_bits, flow_ctrl, dtr,
        start_mode, start_delay, start_msg⟩

/-- Serde encoding of `PlotMode`. -/
def PlotMode.toJson : PlotMode → Json
  | PlotMode.Continous => Json.str "Continous"
  | PlotMode.Cyclic => Json.str "Cyclic"
  | PlotMode.SingleShot => Json.str "SingleShot"

/-- Serde decoding of `PlotMode`. -/
def PlotMode.fromJson : Json → Option PlotMode
  | Json.str "Continous" => some PlotMode.Continous
  | Json.str "Cyclic" => some PlotMode.Cyclic
  | Json.str "SingleShot" => some PlotMode.SingleShot
  | _ => none

/-- Serde encoding of `PlotScaleMode`. -/
def PlotScaleMode.toJson : PlotScaleMode → Json
  | PlotScaleMode.Auto => Json.str "Auto"
  | PlotScaleMode.AutoMax => Json.str "AutoMax"
  | PlotScaleMode.Manual => Json.str "Manual"

/-- Serde decoding of `PlotScaleMode`. -/
def PlotScaleMode.fromJson : Json → Option PlotScaleMode
  | Json.str "Auto" => some PlotScaleMode.Auto
  | Json.str "AutoMax" => some PlotScaleMode.AutoMax
  | Json.str "Manual" => some PlotScaleMode.Manual
  | _ => none

/-- Serde encoding of `PlotConfig`. -/
def PlotConfig.toJson (c : PlotConfig) : Json :=
  Json.obj
    [("mode", c.mode.toJson),
     ("window", Json.num c.window),
     ("scale_mode", c.scale_mode.toJson),
     ("y_min", Json.num c.y_min),
     ("y_max", Json.num c.y_max)]

/-- Serde decoding of `PlotConfig`. -/
def PlotConfig.fromJson (j : Json) : Option PlotConfig := do
  let mode ← (j.field? "mode").bind PlotMode.fromJson
  let window ← (j.field? "window").bind Json.asRat?
  let scale_mode ← (j.field? "scale_mode").bind PlotScaleMode.fromJson
  let y_min ← (j.field? "y_min").bind Json.asRat?
  let y_max ← (j.field? "y_max").bind Json.asRat?
  pure ⟨mode, window, scale_mode, y_min, y_max⟩

/-- Serde encoding of `TriggerConfig`. -/
def TriggerConfig.toJson (c : TriggerConfig) : Json :=
  Json.obj
    [("window", Json.num c.window),
     ("tolerance", Json.num c.tolerance),
     ("input_slot", Json.num c.input_slot)]

/-- Serde decoding of `TriggerConfig`. -/
def TriggerConfig.fromJson (j : Json) : Option TriggerConfig := do
  let window ← (j.field? "window").bind Json.asRat?
  let tolerance ← (j.field? "tolerance").bind Json.asRat?
  let input_slot ← (j.field? "input_slot").bind Json.asNat?
  pure ⟨window, tolerance, input_slot⟩

/-- Serde encoding of `InputSlot`: `value` is `#[serde(skip)]`, so it is
omitted from the document. -/
def InputSlot.toJson (s : InputSlot) : Json :=
  Json.obj
    [("index", Json.num s.index),
     ("name", Json.str s.name),
     ("color", Json.arr [Json.num s.color.1, Json.num s.color.2.1, Json.num s.color.2.2])]

/-- Serde decoding of `InputSlot`: the skipped `value` field is filled
with its default `0.0`. -/
def InputSlot.fromJson (j : Json) : Option InputSlot := do
  let index ← (j.field? "index").bind Json.asNat?
  let name ← (j.field? "name").bind Json.asStr?
  let color ← match j.field? "color" with
    | some (Json.arr [r, g, b]) => do
      let r ← r.asRat?
      let g ← g.asRat?
      let b ← b.asRat?
      pure (r, g, b)
    | _ => none
  pure ⟨index, name, color, 0⟩

/-- Serde encoding of `PlotData`. -/
def PlotData.toJson (p : PlotData) : Json :=
  Json.obj
    [("id", Json.num p.id),
     ("name", Json.str p.name),
     ("hidden", jsonOfList (fun n : ℕ => Json.num (n : ℚ)) p.hidden),
     ("height", Json.num p.height),
     ("console", Json.bool p.console)]

/-- Serde decoding of `PlotData`. -/
def PlotData.fromJson (j : Json) : Option PlotData := do
  let id ← (j.field? "id").bind Json.asNat?
  let name ← (j.field? "name").bind Json.asStr?
  let hidden ← (j.field? "hidden").bind (listOfJson Json.asNat?)
  let height ← (j.field? "height").bind Json.asRat?
  let console ← (j.field? "console").bind Json.asBool?
  pure ⟨id, name, hidden, height, console⟩

/-- Serde encoding of the root `SerialMonitorData` aggregate: the document
written by `SerialMonitorData::serialize`. -/
def SerialMonitorData.toJson (d : SerialMonitorData) : Json :=
  Json.obj
    [("conn_config", d.conn_config.toJson),
     ("plot_config", d.plot_config.toJson),
     ("trigger_config", d.trigger_config.toJson),
     ("inp_slots", jsonOfList InputSlot.toJson d.inp_slots),
     ("plots", jsonOfList PlotData.toJson d.plots)]

/-- Serde decoding of the root aggregate: `SerialMonitorData::deserialize`
applied to a document. -/
def SerialMonitorData.fromJson (j : Json) : Option SerialMonitorData := do
  let conn_config ← (j.field? "conn_config").bind ConnectionConfig.fromJson
  let plot_config ← (j.field? "plot_config").bind PlotConfig.fromJson
  let trigger_config ← (j.field? "trigger_config").bind TriggerConfig.fromJson
  let inp_slots ← (j.field? "inp_slots").bind (listOfJson InputSlot.fromJson)
  let plots ← (j.field? "plots").bind (listOfJson PlotData.fromJson)
  pure ⟨conn_config, plot_config, trigger_config, inp_slots, plots⟩

/-- The persisted projection of an aggregate: every field kept as is,
except that each `InputSlot.value` is reset to the default `0.0` (the
field is `#[serde(skip)]`). -/
def SerialMonitorData.scrubTransient (d : SerialMonitorData) : SerialMonitorData :=
  { d with inp_slots := d.inp_slots.map (fun s => { s with value := 0 }) }

/-! ## Concrete scenarios from the spec's testable properties -/

/-- The spec's concrete detector scenario: channel 0 samples
`[(0,0),(0.01,0),(0.02,0),(0.1,5),(0.11,5),(0.2,0),(0.21,0),(0.22,0)]`. -/
def scenarioChannel : List Sample :=
  [(0, 0), (1/100, 0), (1/50, 0), (1/10, 5), (11/100, 5),
   (1/5, 0), (21/100, 0), (11/50, 0)]

/-- The spec's concrete detector scenario config: `window = 0.05`,
`tolerance = 0.5`, channel 0. -/
def scenarioTrigger : TriggerConfig :=
  { window := 1/20, tolerance := 1/2, input_slot := 0 }

/-- A channel whose values `[0, 3/2, 1/2, 1/2]` all lie within tolerance 1
of their own mean `5/8`, yet which deviates from the initial-window
baseline `0`. -/
def flatMeanChannel : List Sample :=
  [(0, 0), (1, 3/2), (2, 1/2), (3, 1/2)]

/-- Trigger config for `flatMeanChannel`: `window = 1/20`, `tolerance = 1`. -/
def flatMeanTrigger : TriggerConfig :=
  { window := 1/20, tolerance := 1, input_slot := 0 }

/-- A plot with id 1, as restored from a persisted session. -/
def loadedPlotOne : PlotData :=
  { id := 1, name := "A", hidden := [], height := 256, console := false }

/-- An interleaving of constructions and `update_internal_ids`: create two
plots, reload a session whose only plot has id 1, create another plot. -/
def reloadInterleaving : List PlotOp :=
  [PlotOp.newPlot "A", PlotOp.newPlot "B",
   PlotOp.update [loadedPlotOne], PlotOp.newPlot "C"]

/-! ## Helper lemmas -/

/-- A pushed buffer's `getLast?` is the pushed point. -/
theorem concatGetLast? (l : List Sample) (p : Sample) :
    (l ++ [p]).getLast? = some p := List.getLast?_concat _

/-- A pushed buffer's `head?` is its `headD` default-or-head. -/
theorem concatHead? (l : List Sample) (p : Sample) :
    (l ++ [p]).head? = some (l.headD p) := by
  cases l <;> rfl

/-- A pushed buffer's `getLastD` is the pushed point. -/
theorem concatGetLastD (l : List Sample) (p : Sample) :
    (l ++ [p]).getLastD p = p := by
  rw [List.getLastD_eq_getLast?, concatGetLast?, Option.getD_some]

/-- A pushed buffer's `headD` agrees with the unpushed buffer's. -/
theorem concatHeadD (l : List Sample) (p : Sample) :
    (l ++ [p]).headD p = l.headD p := by
  cases l <;> rfl

/-- The checked scan step never hits a failure branch: it always returns
`some` of the plain scan step's result. -/
theorem scanStepChecked_eq (w tol b : ℚ) (st : ScanState) (p : Sample) :
    scanStepChecked w tol b st p = some (scanStep w tol b st p) := by
  unfold scanStepChecked scanStep
  cases hes : st.event_start with
  | none =>
    simp only [hes, Option.isNone_none, if_true]
    split <;> rfl
  | some s =>
    by_cases hdev : |p.2 - b| > tol
    · simp [hdev]
    · simp only [hdev, if_false]
      rw [concatGetLast?, concatHead?, concatGetLastD, concatHeadD]
      split
      · next lastp headp h1 h2 =>
          cases h1; cases h2
          split <;> rfl
      · next h => exact (h p _ rfl rfl).elim

/-- The checked scan loop returns `some` of the plain scan loop's result. -/
theorem foldlM_scanStepChecked (w tol b : ℚ) :
    ∀ (vs : List Sample) (st : ScanState),
      vs.foldlM (scanStepChecked w tol b) st = some (vs.foldl (scanStep w tol b) st) := by
  intro vs
  induction vs with
  | nil => intro st; rfl
  | cons p rest ih =>
    intro st
    rw [List.foldlM_cons, scanStepChecked_eq, Option.bind_eq_bind, Option.some_bind,
      ih, List.foldl_cons]

/-- The plain scan's `last_event` is the last entry of the instrumented
scan's closed-event list, for any pair of related starting states. -/
theorem scan_trace_rel (w tol b : ℚ) :
    ∀ (vs : List Sample) (es : Option ℚ) (buf : List Sample)
      (le : Option (ℚ × ℚ)) (evs : List (ℚ × ℚ)), le = evs.getLast? →
      (vs.foldl (scanStep w tol b) ⟨es, le, buf⟩).last_event
        = (vs.foldl (traceStep w tol b) ⟨es, evs, buf⟩).events.getLast? := by
  intro vs
  induction vs with
  | nil => intro es buf le evs h; simpa using h
  | cons p rest ih =>
    intro es buf le evs h
    rw [List.foldl_cons, List.foldl_cons]
    cases es with
    | none =>
      by_cases hdev : |p.2 - b| > tol
      · simp only [scanStep, traceStep, hdev, if_pos, Option.isNone_none, if_true]
        exact ih _ _ _ _ h
      · simp only [scanStep, traceStep, hdev, if_neg, ite_false]
        exact ih _ _ _ _ h
    | some s =>
      by_cases hdev : |p.2 - b| > tol
      · simp only [scanStep, traceStep, hdev, if_pos, Option.isNone_some, if_false]
        exact ih _ _ _ _ h
      · simp only [scanStep, traceStep, hdev, ite_false]
        by_cases hspan : ((buf ++ [p]).getLastD p).1 - ((buf ++ [p]).headD p).1 ≥ w
        · simp only [hspan, if_pos]
          exact ih _ _ _ _ (by rw [List.getLast?_concat])
        · simp only [hspan, if_neg, ite_false]
          exact ih _ _ _ _ h

/-- If no event start is pending and every sample stays within tolerance
of the baseline, the scan state never changes. -/
theorem scan_idle (w tol b : ℚ) :
    ∀ (vs : List Sample) (st : ScanState), st.event_start = none →
      (∀ p ∈ vs, |p.2 - b| ≤ tol) →
      vs.foldl (scanStep w tol b) st = st := by
  intro vs
  induction vs with
  | nil => intro st _ _; rfl
  | cons p rest ih =>
    intro st hes hall
    rw [List.foldl_cons]
    have hstep : scanStep w tol b st p = st := by
      unfold scanStep
      rw [hes]
      simp only [not_lt.mpr (hall p (by simp)), if_neg, ite_false]
    rw [hstep]
    exact ih st hes (fun q hq => hall q (by simp [hq]))

/-- A run of constructor calls hands out the consecutive ids starting at
the current counter and leaves the counter advanced by the run's length. -/
theorem runOps_construct :
    ∀ (ops : List PlotOp) (s : IdState), (∀ op ∈ ops, op.isConstruct = true) →
      (runOps ops s).1 = List.range' s.plot_id ops.length
      ∧ (runOps ops s).2.plot_id = s.plot_id + ops.length := by
  intro ops
  induction ops with
  | nil => intro s _; exact ⟨rfl, rfl⟩
  | cons op rest ih =>
    intro s hall
    have hrest : ∀ op ∈ rest, op.isConstruct = true :=
      fun o ho => hall o (List.mem_cons_of_mem _ ho)
    cases op with
    | newPlot name =>
      have h := ih ⟨s.plot_id + 1⟩ hrest
      refine ⟨?_, ?_⟩
      · simp only [runOps, PlotData.new, h.1, List.range']
      · simp only [runOps, PlotData.new, h.2, List.length_cons]
        ring
    | consolePlot =>
      have h := ih ⟨s.plot_id + 1⟩ hrest
      refine ⟨?_, ?_⟩
      · simp only [runOps, PlotData.console_new, h.1, List.range']
      · simp only [runOps, PlotData.console_new, h.2, List.length_cons]
        ring
    | update plots =>
      exact absurd (hall (PlotOp.update plots) (List.mem_cons_self _ _))
        (by simp [PlotOp.isConstruct])

/-! ## JSON round-trip lemmas -/

/-- A natural number encoded as a JSON number decodes back. -/
theorem asNat?_natCast (n : ℕ) : Json.asNat? (Json.num (n : ℚ)) = some n := by
  simp [Json.asNat?]

/-- `Parity` JSON round-trip. -/
theorem parityRoundtrip (p : Parity) : Parity.fromJson (Parity.toJson p) = some p := by
  cases p <;> rfl

/-- `FlowCtrl` JSON round-trip. -/
theorem flowCtrlRoundtrip (f : FlowCtrl) : FlowCtrl.fromJson (FlowCtrl.toJson f) = some f := by
  cases f <;> rfl

/-- `Duration` JSON round-trip. -/
theorem durationRoundtrip (d : Duration) : Duration.fromJson (Duration.toJson d) = some d := by
  cases d with
  | mk secs nanos =>
    simp [Duration.toJson, Duration.fromJson, Json.field?, List.lookup, asNat?_natCast]

/-- `StartMode` JSON round-trip. -/
theorem startModeRoundtrip (m : StartMode) : StartMode.fromJson (StartMode.toJson m) = some m := by
  cases m with
  | Immediate => rfl
  | Delay d => simp [StartMode.toJson, StartMode.fromJson, durationRoundtrip]
  | Message msg => rfl

/-- `ConnectionConfig` JSON round-trip. -/
theorem connectionConfigRoundtrip (c : ConnectionConfig) :
    ConnectionConfig.fromJson (ConnectionConfig.toJson c) = some c := by
  cases c
  simp [ConnectionConfig.toJson, ConnectionConfig.fromJson, Json.field?, List.lookup,
    Json.asStr?, Json.asBool?, asNat?_natCast, parityRoundtrip,
    flowCtrlRoundtrip, startModeRoundtrip]

/-- `PlotMode` JSON round-trip. -/
theorem plotModeRoundtrip (m : PlotMode) : PlotMode.fromJson (PlotMode.toJson m) = some m := by
  cases m <;> rfl

/-- `PlotScaleMode` JSON round-trip. -/
theorem plotScaleModeRoundtrip (m : PlotScaleMode) :
    PlotScaleMode.fromJson (PlotScaleMode.toJson m) = some m := by
  cases m <;> rfl

/-- `PlotConfig` JSON round-trip. -/
theorem plotConfigRoundtrip (c : PlotConfig) :
    PlotConfig.fromJson (PlotConfig.toJson c) = some c := by
  cases c
  simp [PlotConfig.toJson, PlotConfig.fromJson, Json.field?, List.lookup,
    Json.asRat?, plotModeRoundtrip, plotScaleModeRoundtrip]

/-- `TriggerConfig` JSON round-trip. -/
theorem triggerConfigRoundtrip (c : TriggerConfig) :
    TriggerConfig.fromJson (TriggerConfig.toJson c) = some c := by
  cases c
  simp [TriggerConfig.toJson, TriggerConfig.fromJson, Json.field?, List.lookup,
    Json.asRat?, asNat?_natCast]

/-- `InputSlot` JSON round-trip: every persisted field survives and the
skipped `value` comes back as the default `0`. -/
theorem inputSlotRoundtrip (s : InputSlot) :
    InputSlot.fromJson (InputSlot.toJson s) = some { s with value := 0 } := by
  cases s
  simp [InputSlot.toJson, InputSlot.fromJson, Json.field?, List.lookup,
    Json.asStr?, Json.asRat?, asNat?_natCast]

/-- Element-wise encode/decode round-trips lift to lists. -/
theorem mapM_map {α β : Type} (f : α → Json) (g : Json → Option β) (h : α → β)
    (hfg : ∀ x, g (f x) = some (h x)) :
    ∀ l : List α, (l.map f).mapM g = some (l.map h) := by
  intro l
  induction l with
  | nil => rfl
  | cons x xs ih =>
    rw [List.map_cons, List.mapM_cons, hfg, ih]
    rfl

/-- Lists of naturals (the `hidden` field) JSON round-trip. -/
theorem natList_roundtrip (l : List ℕ) :
    listOfJson Json.asNat? (jsonOfList (fun n : ℕ => Json.num (n : ℚ)) l) = some l := by
  unfold listOfJson jsonOfList
  have h := mapM_map (fun n : ℕ => Json.num (n : ℚ)) Json.asNat? id
    (fun n => asNat?_natCast n) l
  rw [List.map_id] at h
  exact h

/-- `PlotData` JSON round-trip. -/
theorem plotDataRoundtrip (p : PlotData) :
    PlotData.fromJson (PlotData.toJson p) = some p := by
  cases p
  simp [PlotData.toJson, PlotData.fromJson, Json.field?, List.lookup,
    Json.asStr?, Json.asRat?, Json.asBool?, asNat?_natCast, natList_roundtrip]

/-- `InputSlot` lists JSON round-trip up to resetting each `value`. -/
theorem inpSlotsList_roundtrip (l : List InputSlot) :
    listOfJson InputSlot.fromJson (jsonOfList InputSlot.toJson l)
      = some (l.map (fun s => { s with value := 0 })) := by
  unfold listOfJson jsonOfList
  exact mapM_map _ _ _ inputSlotRoundtrip l

/-- `PlotData` lists JSON round-trip. -/
theorem plotsList_roundtrip (l : List PlotData) :
    listOfJson PlotData.fromJson (jsonOfList PlotData.toJson l) = some l := by
  unfold listOfJson jsonOfList
  have h := mapM_map PlotData.toJson PlotData.fromJson id plotDataRoundtrip l
  rw [List.map_id] at h
  exact h

/-! ## Claim theorems -/

/-- C1: during the scan of `detect_single_shot`, an event start is set at
the first out-of-tolerance sample while none is pending (and kept while
one is pending); and whenever the stable run's time span (last run sample
timestamp minus first run sample timestamp) reaches or exceeds the window,
the event closes with start `event_start - window` and end the run's last
sample timestamp, resetting the pending state and the run; a shorter run
only accumulates. -/
theorem scanStep_event_rules (w tol b : ℚ) (st : ScanState) (p : Sample) :
    (st.event_start = none → tol < |p.2 - b| →
      (scanStep w tol b st p).event_start = some p.1)
    ∧ (∀ s, st.event_start = some s → tol < |p.2 - b| →
      (scanStep w tol b st p).event_start = some s)
    ∧ (∀ s, st.event_start = some s → |p.2 - b| ≤ tol →
      ((st.stable_buffer ++ [p]).getLastD p).1 - ((st.stable_buffer ++ [p]).headD p).1 ≥ w →
      scanStep w tol b st p =
        ⟨none, some (s - w, ((st.stable_buffer ++ [p]).getLastD p).1), []⟩)
    ∧ (∀ s, st.event_start = some s → |p.2 - b| ≤ tol →
      ¬ (((st.stable_buffer ++ [p]).getLastD p).1 - ((st.stable_buffer ++ [p]).headD p).1 ≥ w) →
      scanStep w tol b st p = ⟨some s, st.last_event, st.stable_buffer ++ [p]⟩) := by
  refine ⟨?_, ?_, ?_, ?_⟩
  · intro hes hdev
    unfold scanStep
    rw [hes]
    simp [hdev]
  · intro s hes hdev
    unfold scanStep
    rw [hes]
    simp [hdev]
  · intro s hes hdev hspan
    unfold scanStep
    rw [hes]
    simp only [not_lt.mpr hdev, ite_false, if_neg, hspan, if_pos, if_true]
  · intro s hes hdev hspan
    unfold scanStep
    rw [hes]
    simp only [not_lt.mpr hdev, ite_false, if_neg, hspan, if_false]

/-- Witness for C1: with window 1, tolerance 1, baseline 0, a pending
event started at 1 and a run `[(2,0)]`, the sample `(3,0)` closes the
event as `(1 - 1, 3) = (0, 3)`; and the sample `(5,7)` opens an event at 5
when none is pending. -/
theorem scanStep_event_rules_witness :
    scanStep 1 1 0 ⟨some 1, none, [(2, 0)]⟩ (3, 0) = ⟨none, some (0, 3), []⟩
    ∧ (scanStep 1 1 0 ⟨none, none, []⟩ (5, 7)).event_start = some 5 := by
  constructor
  · have h := (scanStep_event_rules 1 1 0 ⟨some 1, none, [(2, 0)]⟩ (3, 0)).2.2.1 1 rfl
      (by norm_num [abs_eq_max_neg, max_def])
      (by show (3 : ℚ) - 2 ≥ 1; norm_num)
    rw [h]
    norm_num
  · exact (scanStep_event_rules 1 1 0 ⟨none, none, []⟩ (5, 7)).1 rfl
      (by norm_num [abs_eq_max_neg, max_def])

/-- C2 counterexample: on the spec's concrete scenario the function does
not return `Some((0.05, 0.22))`; the stable run that begins at `t = 0.2`
spans only `0.02 < 0.05` by the last sample, so no event ever closes. -/
theorem scenario_detect_ne_expected :
    detect_single_shot [scenarioChannel] scenarioTrigger ≠ some (1/20, 11/50) := by
  have h : detect_single_shot [scenarioChannel] scenarioTrigger = none := by
    norm_num [detect_single_shot, scenarioChannel, scenarioTrigger, runScan, scanStep,
      codeBaselineSlice, abs_eq_max_neg, max_def]
  rw [h]
  simp

/-- C2 (amended): on the spec's concrete scenario `detect_single_shot`
returns `None`: the deviation at `t = 0.1` opens an event, but the stable
run `(0.2,0),(0.21,0),(0.22,0)` spans only `0.02` seconds, below the
`0.05` window, so no event closes. -/
theorem scenario_detect_none :
    detect_single_shot [scenarioChannel] scenarioTrigger = none := by
  norm_num [detect_single_shot, scenarioChannel, scenarioTrigger, runScan, scanStep,
    codeBaselineSlice, abs_eq_max_neg, max_def]

/-- C3: `detect_single_shot` returns exactly the last event closed during
the full scan — `none` when no event closes, and the final (overwriting)
one otherwise. -/
theorem detect_returns_last_closed (values : List (List Sample)) (tc : TriggerConfig) :
    detect_single_shot values tc = (closedEvents values tc).getLast? := by
  unfold detect_single_shot closedEvents
  by_cases h1 : tc.input_slot ≥ values.length ∨ (values.getD tc.input_slot []).length < 2
  · rw [if_pos h1, if_pos h1]; rfl
  · rw [if_neg h1, if_neg h1]
    simp only
    cases hhead : (values.getD tc.input_slot []).head? with
    | none => rfl
    | some first =>
      simp only
      by_cases h3 : (codeBaselineSlice (values.getD tc.input_slot []) tc.window).isEmpty
      · rw [if_pos h3, if_pos h3]; rfl
      · rw [if_neg h3, if_neg h3]
        exact scan_trace_rel _ _ _ _ _ _ _ _ rfl

/-- C4: when `input_slot` is out of range or the selected channel has
fewer than 2 samples, `detect_single_shot` returns `None`. -/
theorem detect_insufficient_data (values : List (List Sample)) (tc : TriggerConfig)
    (h : tc.input_slot ≥ values.length ∨ (values.getD tc.input_slot []).length < 2) :
    detect_single_shot values tc = none := by
  unfold detect_single_shot
  rw [if_pos h]

/-- Witness for C4: the empty channel list and a single-sample channel
both yield `None` under the default trigger config. -/
theorem detect_insufficient_data_witness :
    detect_single_shot [] TriggerConfig.default = none
    ∧ detect_single_shot [[(0, 0)]] TriggerConfig.default = none := by
  constructor
  · exact detect_insufficient_data [] TriggerConfig.default
      (by norm_num [TriggerConfig.default])
  · exact detect_insufficient_data [[(0, 0)]] TriggerConfig.default
      (by norm_num [TriggerConfig.default])

/-- C5: for an in-range channel with at least 2 samples whose timestamps
are non-decreasing, the code's baseline slice equals the slice of exactly
the samples with timestamp in `[t0, t0 + window]` inclusive (the spec's
wording); if that slice is empty the function returns `None`, and
otherwise the scan runs with baseline the arithmetic mean of that slice's
values. -/
theorem detect_baseline_spec (values : List (List Sample)) (tc : TriggerConfig)
    (hlt : tc.input_slot < values.length)
    (h2 : 2 ≤ (values.getD tc.input_slot []).length)
    (hmono : (values.getD tc.input_slot []).Pairwise (fun a b => a.1 ≤ b.1)) :
    codeBaselineSlice (values.getD tc.input_slot []) tc.window
      = specBaselineSlice (values.getD tc.input_slot []) tc.window
    ∧ (specBaselineSlice (values.getD tc.input_slot []) tc.window = [] →
        detect_single_shot values tc = none)
    ∧ (specBaselineSlice (values.getD tc.input_slot []) tc.window ≠ [] →
        detect_single_shot values tc =
          (runScan (values.getD tc.input_slot []) tc.window tc.tolerance
            ((specBaselineSlice (values.getD tc.input_slot []) tc.window).sum /
              ((specBaselineSlice (values.getD tc.input_slot []) tc.window).length : ℚ))).last_event) := by
  have hvs : values.getD tc.input_slot [] ≠ [] := by
    intro hnil
    rw [hnil] at h2
    norm_num at h2
  obtain ⟨first, rest, hcons⟩ := List.exists_cons_of_ne_nil hvs
  have hhead : (values.getD tc.input_slot []).head? = some first := by
    rw [hcons]; rfl
  have hfirstle : ∀ p ∈ values.getD tc.input_slot [], first.1 ≤ p.1 := by
    intro p hp
    rw [hcons] at hp hmono
    rcases List.mem_cons.mp hp with h | h
    · rw [h]
    · exact (List.pairwise_cons.mp hmono).1 p h
  have hslice : codeBaselineSlice (values.getD tc.input_slot []) tc.window
      = specBaselineSlice (values.getD tc.input_slot []) tc.window := by
    unfold codeBaselineSlice specBaselineSlice
    rw [hhead]
    simp only
    congr 1
    apply List.filter_congr
    intro n hn
    have hle := hfirstle n hn
    apply decide_eq_decide.mpr
    constructor
    · intro h
      exact ⟨hle, by linarith⟩
    · intro h
      linarith [h.2]
  have hdisj : ¬ (tc.input_slot ≥ values.length ∨
      (values.getD tc.input_slot []).length < 2) := by
    push_neg
    exact ⟨hlt, h2⟩
  refine ⟨hslice, ?_, ?_⟩
  · intro hempty
    unfold detect_single_shot
    rw [if_neg hdisj]
    simp only
    rw [hhead]
    simp only
    rw [if_pos (by rw [hslice, hempty]; rfl :
      (codeBaselineSlice (values.getD tc.input_slot []) tc.window).isEmpty = true)]
  · intro hne
    unfold detect_single_shot
    rw [if_neg hdisj]
    simp only
    rw [hhead]
    simp only
    rw [if_neg (by rw [hslice]; simpa [List.isEmpty_iff] using hne :
      ¬ (codeBaselineSlice (values.getD tc.input_slot []) tc.window).isEmpty = true)]
    rw [hslice]

/-- Witness for C5: the two-sample sorted channel `[(0,0),(1,2)]` with
window `1/20`. -/
theorem detect_baseline_spec_witness :
    codeBaselineSlice [(0, 0), (1, 2)] (1/20) = specBaselineSlice [(0, 0), (1, 2)] (1/20)
    ∧ (specBaselineSlice [(0, 0), (1, 2)] (1/20) = [] →
        detect_single_shot [[(0, 0), (1, 2)]] ⟨1/20, 1/10, 0⟩ = none)
    ∧ (specBaselineSlice [(0, 0), (1, 2)] (1/20) ≠ [] →
        detect_single_shot [[(0, 0), (1, 2)]] ⟨1/20, 1/10, 0⟩ =
          (runScan [(0, 0), (1, 2)] (1/20) (1/10)
            ((specBaselineSlice [(0, 0), (1, 2)] (1/20)).sum /
              ((specBaselineSlice [(0, 0), (1, 2)] (1/20)).length : ℚ))).last_event) :=
  detect_baseline_spec [[(0, 0), (1, 2)]] ⟨1/20, 1/10, 0⟩ (by norm_num)
    (by norm_num)
    (by norm_num [List.pairwise_cons])

/-- C6 counterexample: the channel `[(0,0),(1,3/2),(2,1/2),(3,1/2)]` has
every value within tolerance 1 of its own mean `5/8`, yet the detector
(whose baseline is the initial-window mean `0`, not the channel mean)
returns an event rather than `None`. -/
theorem within_mean_tolerance_detects :
    (flatMeanChannel.all (fun p =>
      |p.2 - (flatMeanChannel.map (fun q => q.2)).sum / (flatMeanChannel.length : ℚ)| ≤
        flatMeanTrigger.tolerance) = true)
    ∧ detect_single_shot [flatMeanChannel] flatMeanTrigger = some (19/20, 3)
    ∧ detect_single_shot [flatMeanChannel] flatMeanTrigger ≠ none := by
  refine ⟨?_, ?_, ?_⟩
  · norm_num [flatMeanChannel, flatMeanTrigger, abs_eq_max_neg, max_def]
  · norm_num [detect_single_shot, flatMeanChannel, flatMeanTrigger, runScan, scanStep,
      codeBaselineSlice, abs_eq_max_neg, max_def]
  · have h : detect_single_shot [flatMeanChannel] flatMeanTrigger = some (19/20, 3) := by
      norm_num [detect_single_shot, flatMeanChannel, flatMeanTrigger, runScan, scanStep,
        codeBaselineSlice, abs_eq_max_neg, max_def]
    rw [h]
    simp

/-- C6 (amended): a channel whose values all lie within tolerance of the
detector's baseline — the mean over the initial-window slice, not over the
whole channel — yields `None`. -/
theorem detect_none_of_baseline_tolerant (values : List (List Sample)) (tc : TriggerConfig)
    (h : ∀ p ∈ values.getD tc.input_slot [],
      |p.2 - codeBaseline (values.getD tc.input_slot []) tc.window| ≤ tc.tolerance) :
    detect_single_shot values tc = none := by
  unfold detect_single_shot
  by_cases h1 : tc.input_slot ≥ values.length ∨ (values.getD tc.input_slot []).length < 2
  · rw [if_pos h1]
  · rw [if_neg h1]
    simp only
    cases hhead : (values.getD tc.input_slot []).head? with
    | none => rfl
    | some first =>
      simp only
      by_cases h3 : (codeBaselineSlice (values.getD tc.input_slot []) tc.window).isEmpty
      · rw [if_pos h3]
      · rw [if_neg h3]
        unfold runScan
        have hb : (codeBaselineSlice (values.getD tc.input_slot []) tc.window).sum /
            ((codeBaselineSlice (values.getD tc.input_slot []) tc.window).length : ℚ)
            = codeBaseline (values.getD tc.input_slot []) tc.window := rfl
        rw [hb, scan_idle tc.window tc.tolerance
          (codeBaseline (values.getD tc.input_slot []) tc.window)
          (values.getD tc.input_slot []) ⟨none, none, []⟩ rfl h]

/-- Witness for C6 (amended): a two-sample flat channel. -/
theorem detect_none_of_baseline_tolerant_witness :
    detect_single_shot [[(0, 0), (1, 0)]] ⟨1, 1, 0⟩ = none :=
  detect_none_of_baseline_tolerant [[(0, 0), (1, 0)]] ⟨1, 1, 0⟩
    (by norm_num [codeBaseline, codeBaselineSlice, abs_eq_max_neg, max_def])

/-- C7: the start-mode conversion selects the variant matching the stored
`start_mode` tag and takes the payload from the sibling fields — the
Delay payload is `start_delay` converted from milliseconds (whatever
duration was stored in the variant), the Message payload is `start_msg`
(whatever string was stored in the variant), and Immediate carries
nothing. -/
theorem toStartMode_selects_by_tag (cfg : ConnectionConfig) (d : Duration) (s : String) :
    ConnectionConfig.toStartMode { cfg with start_mode := StartMode.Immediate }
      = StartMode.Immediate
    ∧ ConnectionConfig.toStartMode { cfg with start_mode := StartMode.Delay d }
      = StartMode.Delay (Duration.from_millis cfg.start_delay)
    ∧ ConnectionConfig.toStartMode { cfg with start_mode := StartMode.Message s }
      = StartMode.Message cfg.start_msg :=
  ⟨rfl, rfl, rfl⟩

/-- C8 counterexample: the interleaving "create two plots, reload a
session whose only plot has id 1, create a third plot" hands out the ids
`[1, 2, 2]` — the plain counter store of `update_internal_ids` moves the
counter backward, so ids are not distinct across arbitrary interleavings. -/
theorem reload_interleaving_duplicates_ids :
    (runOps reloadInterleaving IdState.init).1 = [1, 2, 2]
    ∧ ¬ (runOps reloadInterleaving IdState.init).1.Nodup := by
  constructor
  · rfl
  · decide

/-- C8 (amended): with no intervening `update_internal_ids`, constructing
plots via either constructor yields pairwise distinct ids and advances the
counter by one per construction; and right after `update_internal_ids` on
a plot list with maximum id `m`, the next constructed plot has id
`m + 1 > m`.  Distinctness across arbitrary interleavings with
`update_internal_ids` does not hold, since the counter is stored, not
advanced monotonically. -/
theorem construct_ids_distinct_and_update_bound (ops : List PlotOp) (s : IdState)
    (name : String) (plots : List PlotData) (m : ℕ)
    (hconstruct : ∀ op ∈ ops, op.isConstruct = true)
    (hmax : (plots.map PlotData.id).max? = some m) :
    (runOps ops s).1.Nodup
    ∧ (runOps ops s).2.plot_id = s.plot_id + ops.length
    ∧ (PlotData.new name (PlotData.update_internal_ids plots s)).1.id = m + 1
    ∧ m < (PlotData.new name (PlotData.update_internal_ids plots s)).1.id := by
  obtain ⟨hids, hcounter⟩ := runOps_construct ops s hconstruct
  refine ⟨?_, hcounter, ?_, ?_⟩
  · rw [hids]; exact List.nodup_range' _ _
  · simp [PlotData.new, PlotData.update_internal_ids, hmax]
  · simp [PlotData.new, PlotData.update_internal_ids, hmax]

/-- Witness for C8 (amended): two constructions from the initial counter,
and an update over a single loaded plot with id 1. -/
theorem construct_ids_distinct_and_update_bound_witness :
    (runOps [PlotOp.newPlot "a", PlotOp.consolePlot] IdState.init).1.Nodup
    ∧ (runOps [PlotOp.newPlot "a", PlotOp.consolePlot] IdState.init).2.plot_id
        = IdState.init.plot_id + 2
    ∧ (PlotData.new "x" (PlotData.update_internal_ids [loadedPlotOne] IdState.init)).1.id = 2
    ∧ 1 < (PlotData.new "x" (PlotData.update_internal_ids [loadedPlotOne] IdState.init)).1.id :=
  construct_ids_distinct_and_update_bound [PlotOp.newPlot "a", PlotOp.consolePlot]
    IdState.init "x" [loadedPlotOne] 1 (by decide) (by decide)

/-- C9: decoding the document produced by encoding a `SerialMonitorData`
succeeds and yields the aggregate with every persisted field intact and
each `InputSlot.value` reset to the default `0` (the field is skipped by
the serializer). -/
theorem serialize_deserialize_roundtrip (d : SerialMonitorData) :
    SerialMonitorData.fromJson (SerialMonitorData.toJson d)
      = some d.scrubTransient := by
  cases d
  simp [SerialMonitorData.toJson, SerialMonitorData.fromJson, SerialMonitorData.scrubTransient,
    Json.field?, List.lookup, connectionConfigRoundtrip, plotConfigRoundtrip,
    triggerConfigRoundtrip, inpSlotsList_roundtrip, plotsList_roundtrip]

/-- C10: `detect_single_shot` is total and panic-free on every input: the
checked variant, in which each partial operation's failure branch
surfaces as an outer `none`, always returns `some` of the plain
function's result. -/
theorem detect_single_shot_total (values : List (List Sample)) (tc : TriggerConfig) :
    detect_single_shot_checked values tc = some (detect_single_shot values tc) := by
  unfold detect_single_shot_checked detect_single_shot
  by_cases h1 : tc.input_slot ≥ values.length
  · simp [h1]
  · have hlt : tc.input_slot < values.length := lt_of_not_ge h1
    have hget : values[tc.input_slot]? = some (values.getD tc.input_slot []) := by
      rw [List.getElem?_eq_getElem hlt, List.getD_eq_getElem?_getD,
        List.getElem?_eq_getElem hlt, Option.getD_some]
    rw [if_neg h1, hget]
    simp only
    by_cases h2 : (values.getD tc.input_slot []).length < 2
    · rw [if_pos h2, if_pos (Or.inr h2 :
        tc.input_slot ≥ values.length ∨ (values.getD tc.input_slot []).length < 2)]
    · have hdisj : ¬ (tc.input_slot ≥ values.length ∨
          (values.getD tc.input_slot []).length < 2) := by
        push_neg
        exact ⟨hlt, not_lt.mp h2⟩
      rw [if_neg h2, if_neg hdisj]
      cases hhead : (values.getD tc.input_slot []).head? with
      | none =>
        exfalso
        rw [List.head?_eq_none_iff.mp hhead] at h2
        exact h2 (by norm_num)
      | some first =>
        simp only
        by_cases h3 : (codeBaselineSlice (values.getD tc.input_slot []) tc.window).isEmpty
        · rw [if_pos h3, if_pos h3]
        · rw [if_neg h3]
          rw [foldlM_scanStepChecked]
          rw [if_neg h3]
          rfl
